import Mathlib

/-
Verification development for the coveo-nuxt-demo repository: a shallow
embedding of its search engine / controller core and of the Vue component
logic in the repository, with theorems settling the claims about it.

The repository delegates the canonical state container and the controller
semantics to the external @coveo/headless library, which is not part of the
repository sources; those parts are modelled from the specification
(definitions whose doc comment starts with Modelled from the spec).
Everything else is translated directly from the repository sources.
-/

namespace CoveoDemo

/-- Modelled from the spec: a pending or applied spelling correction
(spec section 3, Correction record). -/
structure Correction where
  correctedQuery : String
  wasAutomaticallyApplied : Bool
  originalQuery : String
deriving DecidableEq

/-- Modelled from the spec: the display state of one facet value
(spec section 3, FacetValueCount record). -/
inductive FacetValueState
  | idle
  | selected
  | excluded
deriving DecidableEq

/-- Modelled from the spec: one facet value with its result count
(spec section 3, FacetValueCount record). -/
structure FacetValueCount where
  value : String
  count : Nat
  state : FacetValueState
deriving DecidableEq

/-- Raw indexed fields of a result, as read by the ResultItem component
(result.raw.date, result.raw.source, result.raw.author, result.raw.filetype).
The date field is a numeric Unix timestamp in seconds or milliseconds,
absent when the document carries no date. -/
structure RawFields where
  date : Option Int
  source : Option String
  author : Option String
  filetype : Option String
deriving DecidableEq

/-- Modelled from the spec: a single search result (spec section 3, Result
record); rank is its 0-based position in the response it belongs to and
travels with the result for analytics correlation. -/
structure Result where
  uniqueId : String
  title : String
  excerpt : String
  clickUri : String
  rank : Nat
  raw : RawFields
deriving DecidableEq

/-- Modelled from the spec: a settled backend response (spec section 3,
Response record). -/
structure Response where
  results : List Result
  totalCount : Nat
  facetCounts : List (String × List FacetValueCount)
  correction : Option Correction
  durationMs : Nat
  responseId : Nat
deriving DecidableEq

/-- Modelled from the spec: the failure taxonomy of the transport layer
(spec section 7). -/
inductive ErrorKind
  | networkError
  | authError
  | serverError
deriving DecidableEq

/-- The three sort criteria offered by the demo (useSearchControllers.ts,
createSort: relevance, date descending, date ascending). -/
inductive SortCriterion
  | relevance
  | dateDescending
  | dateAscending
deriving DecidableEq

/-- Modelled from the spec: the canonical state owned by the engine
(spec section 3, Canonical State record); the engine itself lives in the
external @coveo/headless library and is not part of the repository sources. -/
structure EngineState where
  queryText : String
  selectedFacets : List (String × List String)
  sortCriterion : SortCriterion
  pageIndex : Nat
  pageSize : Nat
  lastResponse : Option Response
  requestSequence : Nat
  pendingRequestId : Option Nat
  lastError : Option ErrorKind
deriving DecidableEq

/-- Modelled from the spec: the immutable action vocabulary consumed by the
engine reducer (spec section 3, Action record). -/
inductive Action
  | setQueryText (t : String)
  | submitQuery
  | toggleFacetValue (field value : String)
  | clearFacet (field : String)
  | setSortCriterion (c : SortCriterion)
  | setPage (n : Nat)
  | applyCorrection
  | responseArrived (seq : Nat) (r : Response)
  | requestFailed (seq : Nat) (e : ErrorKind)

/-- Selected values of one facet field in the canonical facet mapping. -/
def facetLookup (fs : List (String × List String)) (field : String) : List String :=
  match fs.find? (fun p => p.1 == field) with
  | some p => p.2
  | none => []

/-- Replace the selection of one facet field in the canonical facet mapping. -/
def facetSet (fs : List (String × List String)) (field : String)
    (vals : List String) : List (String × List String) :=
  match fs with
  | [] => [(field, vals)]
  | p :: rest =>
      if p.1 == field then (field, vals) :: rest else p :: facetSet rest field vals

/-- Toggle membership of one value in a selection list. -/
def toggleMembership (v : String) (xs : List String) : List String :=
  if xs.contains v then xs.filter (fun x => x != v) else v :: xs

/-- Modelled from the spec: the number of the last valid 0-based page,
ceil(totalCount / pageSize) - 1 clamped at 0 (spec section 4.2, Pager). -/
def maxPageIndex (s : EngineState) : Nat :=
  match s.lastResponse with
  | none => 0
  | some r => if s.pageSize = 0 then 0 else (r.totalCount + s.pageSize - 1) / s.pageSize - 1

/-- Modelled from the spec: a refetch-triggering action increments
requestSequence and sets pendingRequestId to the new sequence value
(spec section 4.1). -/
def triggerRefetch (s : EngineState) : EngineState :=
  { s with requestSequence := s.requestSequence + 1,
           pendingRequestId := some (s.requestSequence + 1) }

/-- The correction carried by the last settled response, if any. -/
def correctionOf (s : EngineState) : Option Correction :=
  s.lastResponse.bind (fun r => r.correction)

/-- Modelled from the spec: the engine reducer step (spec section 4.1);
the concrete reducer lives inside the external @coveo/headless library.
ResponseArrived and RequestFailed are merged only when their carried
sequence number equals the current pendingRequestId; a merged failure sets
lastError and leaves lastResponse untouched. -/
def dispatch (a : Action) (s : EngineState) : EngineState :=
  match a with
  | Action.setQueryText t => { s with queryText := t }
  | Action.submitQuery => triggerRefetch { s with pageIndex := 0 }
  | Action.toggleFacetValue f v =>
      triggerRefetch
        { s with
          selectedFacets :=
            facetSet s.selectedFacets f (toggleMembership v (facetLookup s.selectedFacets f)),
          pageIndex := 0 }
  | Action.clearFacet f =>
      if (facetLookup s.selectedFacets f).isEmpty then s
      else triggerRefetch { s with selectedFacets := facetSet s.selectedFacets f [] }
  | Action.setSortCriterion c =>
      triggerRefetch { s with sortCriterion := c, pageIndex := 0 }
  | Action.setPage n =>
      triggerRefetch { s with pageIndex := min n (maxPageIndex s) }
  | Action.applyCorrection =>
      match correctionOf s with
      | some c => triggerRefetch { s with queryText := c.correctedQuery }
      | none => s
  | Action.responseArrived seq r =>
      if s.pendingRequestId = some seq then
        { s with lastResponse := some r, pendingRequestId := none, lastError := none }
      else s
  | Action.requestFailed seq e =>
      if s.pendingRequestId = some seq then
        { s with lastError := some e, pendingRequestId := none }
      else s

/-- A concrete idle engine state used by witnesses. -/
def sampleIdleState : EngineState :=
  { queryText := "coffee"
    selectedFacets := []
    sortCriterion := SortCriterion.relevance
    pageIndex := 0
    pageSize := 10
    lastResponse := none
    requestSequence := 7
    pendingRequestId := none
    lastError := none }

/-- A concrete response used by witnesses, carrying responseId 1. -/
def sampleResponseA : Response :=
  { results := [], totalCount := 23, facetCounts := [], correction := none,
    durationMs := 42, responseId := 1 }

/-- A concrete response used by witnesses, carrying responseId 2. -/
def sampleResponseB : Response :=
  { results := [], totalCount := 31, facetCounts := [], correction := none,
    durationMs := 17, responseId := 2 }

/-- A concrete suggested (not automatically applied) correction. -/
def sampleCorrection : Correction :=
  { correctedQuery := "coffee", wasAutomaticallyApplied := false, originalQuery := "cofee" }

/-- A concrete response carrying the sample correction. -/
def correctionResponse : Response :=
  { results := [], totalCount := 5, facetCounts := [], correction := some sampleCorrection,
    durationMs := 9, responseId := 3 }

/-- A concrete engine state whose last response carries a pending
correction. -/
def correctionState : EngineState :=
  { sampleIdleState with queryText := "cofee", lastResponse := some correctionResponse }

/-- A concrete result whose raw fields carry only the given date value. -/
def mkResult (d : Option Int) : Result :=
  { uniqueId := "doc1", title := "t", excerpt := "e", clickUri := "u", rank := 0,
    raw := { date := d, source := none, author := none, filetype := none } }


/-- Modelled from the spec: the Pager controller intent nextPage
(spec section 4.2); the concrete controller lives inside the external
@coveo/headless library.  At the last page it is a no-op that dispatches
nothing; otherwise it moves one page forward through the clamping SetPage
action.  The Bool records whether a network request was triggered. -/
def pagerNextPage (s : EngineState) : EngineState × Bool :=
  if s.pageIndex < maxPageIndex s then
    (dispatch (Action.setPage (s.pageIndex + 1)) s, true)
  else (s, false)

/-- Modelled from the spec: the Pager controller intent previousPage
(spec section 4.2), a no-op at the first page; the concrete controller
lives inside the external @coveo/headless library. -/
def pagerPreviousPage (s : EngineState) : EngineState × Bool :=
  if 0 < s.pageIndex then
    (dispatch (Action.setPage (s.pageIndex - 1)) s, true)
  else (s, false)

/-- The calls a pager component can place on its controller. -/
inductive PagerCall
  | selectPageCall (n : Nat)
  | nextPageCall
  | previousPageCall
deriving DecidableEq

/-- The goToNext handler of the Pager component (Pager component source,
goToNext): it calls pager.nextPage() only when the controller exists and
the cached hasNextPage flag is true. -/
def goToNext (pagerPresent : Bool) (cachedHasNextPage : Bool) : List PagerCall :=
  if pagerPresent && cachedHasNextPage then [PagerCall.nextPageCall] else []

/-- The goToPrevious handler of the Pager component (Pager component
source, goToPrevious). -/
def goToPrevious (pagerPresent : Bool) (cachedHasPreviousPage : Bool) : List PagerCall :=
  if pagerPresent && cachedHasPreviousPage then [PagerCall.previousPageCall] else []

/-- Modelled from the spec: the 1-based page-number window of the Pager
controller, recentred around the current page and clamped to the valid
range (spec section 4.2). -/
def pagerWindow (numberOfPages current maxPage : Nat) : List Nat :=
  (List.range (min numberOfPages maxPage)).map
    (fun i => min (max (current - numberOfPages / 2) 1) (maxPage + 1 - min numberOfPages maxPage) + i)

/-- Modelled from the spec: the state projection exposed by the Pager
controller, recomputed from canonical engine state at the moment of access
(spec sections 4.2 and 9); the concrete controller lives inside the
external @coveo/headless library.  Pages are 1-based as displayed. -/
structure PagerState where
  currentPage : Nat
  currentPages : List Nat
  hasNextPage : Bool
  hasPreviousPage : Bool
  maxPage : Nat
deriving DecidableEq

/-- Modelled from the spec: computing the Pager projection from canonical
engine state (spec section 4.2). -/
def pagerProjection (s : EngineState) (numberOfPages : Nat) : PagerState :=
  { currentPage := s.pageIndex + 1
    currentPages := pagerWindow numberOfPages (s.pageIndex + 1) (maxPageIndex s + 1)
    hasNextPage := decide (s.pageIndex < maxPageIndex s)
    hasPreviousPage := decide (0 < s.pageIndex)
    maxPage := maxPageIndex s + 1 }

/-- The local reactive state cached by the Pager component in Vue refs
(Pager component source: currentPage, pages, hasNextPage, hasPreviousPage,
maxPage). -/
structure PagerComponentState where
  currentPage : Nat
  pages : List Nat
  hasNextPage : Bool
  hasPreviousPage : Bool
  maxPage : Nat
deriving DecidableEq

/-- The initial values of the Pager component refs before any
subscription callback has run (Pager component source: ref(1), ref([]),
ref(false), ref(false), ref(1)). -/
def pagerComponentInit : PagerComponentState :=
  { currentPage := 1, pages := [], hasNextPage := false,
    hasPreviousPage := false, maxPage := 1 }

/-- The Pager component subscription callback: it copies the five fields
of the controller state (built with createPager 5) into the local refs
(Pager component source, the subscribe callback inside onMounted). -/
def pagerComponentSync (s : EngineState) : PagerComponentState :=
  { currentPage := (pagerProjection s 5).currentPage
    pages := (pagerProjection s 5).currentPages
    hasNextPage := (pagerProjection s 5).hasNextPage
    hasPreviousPage := (pagerProjection s 5).hasPreviousPage
    maxPage := (pagerProjection s 5).maxPage }

/-- A concrete engine state sitting on 0-based page 1 of 3 pages
(31 results, page size 10), used to exhibit divergence of the cached
component copy from the canonical projection. -/
def divergedEngineState : EngineState :=
  { queryText := "coffee"
    selectedFacets := []
    sortCriterion := SortCriterion.relevance
    pageIndex := 1
    pageSize := 10
    lastResponse := some sampleResponseB
    requestSequence := 3
    pendingRequestId := none
    lastError := none }

/-- Local reactive state of the SearchBox component (SearchBox.vue:
query, suggestions as raw values, showSuggestions, selectedIndex, the
last initialized to -1). -/
structure SBState where
  query : String
  suggestions : List String
  showSuggestions : Bool
  selectedIndex : Int
deriving DecidableEq

/-- The outward effects the SearchBox submit path can have.  The
vocabulary includes the recent-query append claimed by the specification
so that its absence from the code paths can be stated. -/
inductive SBEffect
  | submitSearch
  | selectSuggestionCall (text : String)
  | appendRecentQuery (text : String)
deriving DecidableEq

/-- Whether an effect is an append to a recent-queries list. -/
def SBEffect.isRecentAppend : SBEffect → Bool
  | SBEffect.appendRecentQuery _ => true
  | _ => false

/-- The selectSuggestion handler of the SearchBox component
(SearchBox.vue, selectSuggestion): it calls
searchBox.selectSuggestion(rawValue), sets the query ref to the raw value
and hides the suggestion dropdown. -/
def selectSuggestionStep (st : SBState) (raw : String) : SBState × List SBEffect :=
  ({ st with query := raw, showSuggestions := false },
   [SBEffect.selectSuggestionCall raw])

/-- The onSubmit handler of the SearchBox component (SearchBox.vue,
onSubmit): when the controller exists, a highlighted suggestion (an index
at least 0 pointing at an existing suggestion) is selected and submitted
through selectSuggestion; otherwise searchBox.submit() runs and the
dropdown is hidden.  Indexing a list at a negative or out-of-range index
yields no suggestion, as JavaScript array indexing yields undefined. -/
def onSubmit (searchBoxPresent : Bool) (st : SBState) : SBState × List SBEffect :=
  if searchBoxPresent then
    if 0 ≤ st.selectedIndex then
      match st.suggestions.get? st.selectedIndex.toNat with
      | some raw => selectSuggestionStep st raw
      | none => ({ st with showSuggestions := false }, [SBEffect.submitSearch])
    else ({ st with showSuggestions := false }, [SBEffect.submitSearch])
  else (st, [])

/-- A concrete SearchBox component state with no highlighted suggestion,
as after typing a query and pressing enter. -/
def sampleSBState : SBState :=
  { query := "coffee", suggestions := [], showSuggestions := true, selectedIndex := -1 }

/-- The engine configuration captured at construction
(useCoveoEngine composable source, engineConfig). -/
structure EngineConfig where
  organizationId : String
  accessToken : String
  searchHub : String
  pipeline : Option String
deriving DecidableEq

/-- A built engine value, identified by the configuration it was
constructed with, which is immutable thereafter. -/
structure BuiltEngine where
  config : EngineConfig
deriving DecidableEq

/-- The option arguments of useCoveoEngine (useCoveoEngine composable
source, CoveoEngineOptions: searchHub, pipeline). -/
structure CoveoOptions where
  searchHub : Option String
  pipeline : Option String
deriving DecidableEq

/-- The observable outcome of one initEngine call: the module-level
engineInstance afterwards, the returned engine, and how many console
warnings and console errors were emitted. -/
structure InitResult where
  instanceAfter : Option BuiltEngine
  returned : Option BuiltEngine
  warnCount : Nat
  errorCount : Nat
deriving DecidableEq

/-- The initEngine function of the useCoveoEngine composable
(useCoveoEngine composable source, initEngine), one call of it against the
module-level singleton engineInstance.  Missing credentials are the empty
string, matching the falsy check on the runtime config values; buildOk
records whether buildSearchEngine succeeds or throws. -/
def initEngine (isClient : Bool) (inst : Option BuiltEngine)
    (organizationId apiKey : String) (options : CoveoOptions)
    (buildOk : Bool) : InitResult :=
  if !isClient then
    { instanceAfter := inst, returned := none, warnCount := 0, errorCount := 0 }
  else
    match inst with
    | some e =>
        { instanceAfter := some e, returned := some e, warnCount := 0, errorCount := 0 }
    | none =>
        if organizationId = "" ∨ apiKey = "" then
          { instanceAfter := none, returned := none, warnCount := 1, errorCount := 0 }
        else
          let cfg : EngineConfig :=
            { organizationId := organizationId
              accessToken := apiKey
              searchHub := options.searchHub.getD "NuxtDemo"
              pipeline := options.pipeline }
          if buildOk then
            { instanceAfter := some { config := cfg }, returned := some { config := cfg },
              warnCount := 0, errorCount := 0 }
          else
            { instanceAfter := none, returned := none, warnCount := 0, errorCount := 1 }

/-- A client-side session as a sequence of useCoveoEngine calls, each
carrying its option arguments and whether buildSearchEngine would succeed,
threading the module-level engineInstance and accumulating the emitted
warnings. -/
def initCallsFold (orgId apiKey : String) (calls : List (CoveoOptions × Bool))
    (acc : Option BuiltEngine × Nat) : Option BuiltEngine × Nat :=
  match calls with
  | [] => acc
  | c :: rest =>
      initCallsFold orgId apiKey rest
        (let r := initEngine true acc.1 orgId apiKey c.1 c.2
         (r.instanceAfter, acc.2 + r.warnCount))

/-- All useCoveoEngine calls of one fresh client session. -/
def runCalls (orgId apiKey : String) (calls : List (CoveoOptions × Bool)) :
    Option BuiltEngine × Nat :=
  initCallsFold orgId apiKey calls (none, 0)

/-- Option arguments leaving both fields unset. -/
def defaultOptions : CoveoOptions := { searchHub := none, pipeline := none }

/-- Concrete option arguments selecting search hub HubA. -/
def optionsA : CoveoOptions := { searchHub := some "HubA", pipeline := none }

/-- Concrete option arguments selecting search hub HubB and a pipeline. -/
def optionsB : CoveoOptions := { searchHub := some "HubB", pipeline := some "pipeB" }

/-- A concrete already-built engine used by witnesses. -/
def sampleBuiltEngine : BuiltEngine :=
  { config := { organizationId := "org", accessToken := "key",
                searchHub := "NuxtDemo", pipeline := none } }

/-- Modelled from the spec: the Click analytics event record carrying the
unique id and rank of the opened result and the originating query text
(spec section 4.3); the event assembly lives inside the external
@coveo/headless logDocumentOpen action. -/
structure ClickEvent where
  uniqueId : String
  rank : Nat
  query : String
deriving DecidableEq

/-- Modelled from the spec: the Click event assembled for an opened result
from the canonical state (spec section 4.3). -/
def clickEventOf (s : EngineState) (r : Result) : ClickEvent :=
  { uniqueId := r.uniqueId, rank := r.rank, query := s.queryText }

/-- The logDocumentClick function of the analytics composable
(useCoveoAnalytics.ts, logDocumentClick): with no engine it returns
without dispatching; with an engine it dispatches the logDocumentOpen
action for the result exactly once. -/
def logDocumentClick (engine : Option EngineState) (r : Result) : List ClickEvent :=
  match engine with
  | none => []
  | some s => [clickEventOf s r]

/-- The trackClick handler of the ResultList component (ResultList
component source, trackClick): it forwards the clicked result to
logDocumentClick once. -/
def trackClick (engine : Option EngineState) (r : Result) : List ClickEvent :=
  logDocumentClick engine r

/-- Modelled from the spec: opening a result as an engine transition with
best-effort analytics (spec section 4.3): the emission is attempted once
and its success or failure, recorded by emitDelivered, never changes the
canonical state. -/
def openResult (s : EngineState) (r : Result) (emitDelivered : Bool) :
    EngineState × List ClickEvent × Bool :=
  (s, [clickEventOf s r], emitDelivered)

/-- The applyCorrection handler of the DidYouMean component
(DidYouMean.vue, applyCorrection): it calls the controller applyCorrection
when the controller exists, modelled through the ApplyCorrection engine
action. -/
def applyCorrectionHandler (dymPresent : Bool) (s : EngineState) : EngineState :=
  if dymPresent then dispatch Action.applyCorrection s else s

/-- The effects the DidYouMean component handlers could have beyond the
canonical state transition. -/
inductive DymEffect
  | applyCorrectionCall
deriving DecidableEq

/-- The searchOriginal handler of the DidYouMean component
(DidYouMean.vue, searchOriginal): its body only checks that the controller
exists and contains no further statement, so either way nothing happens. -/
def searchOriginal (dymPresent : Bool) (s : EngineState) : EngineState × List DymEffect :=
  if dymPresent then (s, []) else (s, [])

/-- The millisecond interpretation of the raw date field computed by the
formattedDate projection of the ResultItem component (ResultItem component
source, formattedDate): a falsy value (absent or 0) yields null, a value
above 1e12 is taken as milliseconds, any other value as seconds.  The
subsequent locale rendering of the Date is display-only and not
modelled. -/
def formattedDateMs (raw : Option Int) : Option Int :=
  match raw with
  | none => none
  | some d =>
      if d = 0 then none
      else if d > 1000000000000 then some d
      else some (d * 1000)

/-- The formattedDate projection applied to a result (ResultItem component
source, formattedDate reading props.result.raw.date). -/
def formattedDate (r : Result) : Option Int :=
  formattedDateMs r.raw.date

/-- C1: a ResponseArrived or RequestFailed action is merged into canonical
state only when its carried sequence number equals the current
pendingRequestId; and when requests A then B are triggered (B after A, so
with a strictly greater sequence number) and A's response arrives after
B's, the canonical state reflects B's response and the stale response A is
silently discarded. -/
theorem c1_stale_response_guard :
    (∀ (s : EngineState) (seq : Nat) (r : Response),
      s.pendingRequestId ≠ some seq → dispatch (Action.responseArrived seq r) s = s) ∧
    (∀ (s : EngineState) (seq : Nat) (e : ErrorKind),
      s.pendingRequestId ≠ some seq → dispatch (Action.requestFailed seq e) s = s) ∧
    (∀ (s : EngineState) (rA rB : Response),
      (dispatch Action.submitQuery s).requestSequence
        < (dispatch Action.submitQuery (dispatch Action.submitQuery s)).requestSequence ∧
      dispatch
          (Action.responseArrived (dispatch Action.submitQuery s).requestSequence rA)
          (dispatch
            (Action.responseArrived
              (dispatch Action.submitQuery (dispatch Action.submitQuery s)).requestSequence rB)
            (dispatch Action.submitQuery (dispatch Action.submitQuery s)))
        = dispatch
            (Action.responseArrived
              (dispatch Action.submitQuery (dispatch Action.submitQuery s)).requestSequence rB)
            (dispatch Action.submitQuery (dispatch Action.submitQuery s)) ∧
      (dispatch
          (Action.responseArrived (dispatch Action.submitQuery s).requestSequence rA)
          (dispatch
            (Action.responseArrived
              (dispatch Action.submitQuery (dispatch Action.submitQuery s)).requestSequence rB)
            (dispatch Action.submitQuery (dispatch Action.submitQuery s)))).lastResponse
        = some rB) := by
  refine ⟨?_, ?_, ?_⟩
  · intro s seq r h
    simp only [dispatch, if_neg h]
  · intro s seq e h
    simp only [dispatch, if_neg h]
  · intro s rA rB
    refine ⟨by simp [dispatch, triggerRefetch], ?_, ?_⟩ <;>
      simp [dispatch, triggerRefetch]

/-- Witness for C1, at a concrete idle state and concrete responses: a
stale response and a stale failure with sequence number 5 are both
discarded unchanged. -/
theorem c1_stale_response_guard_witness :
    dispatch (Action.responseArrived 5 sampleResponseA) sampleIdleState = sampleIdleState ∧
    dispatch (Action.requestFailed 5 ErrorKind.networkError) sampleIdleState = sampleIdleState ∧
    (dispatch
        (Action.responseArrived
          (dispatch Action.submitQuery sampleIdleState).requestSequence sampleResponseA)
        (dispatch
          (Action.responseArrived
            (dispatch Action.submitQuery
              (dispatch Action.submitQuery sampleIdleState)).requestSequence sampleResponseB)
          (dispatch Action.submitQuery
            (dispatch Action.submitQuery sampleIdleState)))).lastResponse
      = some sampleResponseB :=
  ⟨c1_stale_response_guard.1 sampleIdleState 5 sampleResponseA (by decide),
   c1_stale_response_guard.2.1 sampleIdleState 5 ErrorKind.networkError (by decide),
   (c1_stale_response_guard.2.2 sampleIdleState sampleResponseA sampleResponseB).2.2⟩

/-- One initEngine call on the client with no instance yet and missing
credentials warns once and leaves no instance. -/
theorem initEngine_missing_creds (orgId apiKey : String) (o : CoveoOptions) (b : Bool)
    (hmiss : orgId = "" ∨ apiKey = "") :
    initEngine true none orgId apiKey o b =
      { instanceAfter := none, returned := none, warnCount := 1, errorCount := 0 } := by
  rcases hmiss with h | h <;> subst h <;> simp [initEngine]

/-- With missing credentials every client-side call warns once and the
singleton stays empty, whatever the accumulated warning count. -/
theorem initCallsFold_missing_creds (orgId apiKey : String)
    (hmiss : orgId = "" ∨ apiKey = "") (calls : List (CoveoOptions × Bool)) :
    ∀ w : Nat, initCallsFold orgId apiKey calls (none, w) = (none, w + calls.length) := by
  induction calls with
  | nil => intro w; simp [initCallsFold]
  | cons c rest ih =>
      intro w
      rw [initCallsFold]
      simp only [initEngine_missing_creds orgId apiKey c.1 c.2 hmiss]
      rw [ih (w + 1)]
      have harith : w + 1 + rest.length = w + (rest.length + 1) := by omega
      rw [harith]
      rfl

/-- C2, counterexample: in a misconfigured client session (empty
organization id) two useCoveoEngine calls yield a null engine but emit two
console warnings, not exactly one. -/
theorem c2_counterexample_warn_per_call :
    runCalls "" "someKey" [(defaultOptions, true), (defaultOptions, true)] = (none, 2) ∧
    (2 : Nat) ≠ 1 := by
  constructor
  · rfl
  · decide

/-- C2 (amended): with missing credentials (empty organization id or API
key) no call of a client session ever produces a usable engine instance,
and the misconfiguration is reported loudly with exactly one console
warning per useCoveoEngine call, not retried silently into a request and
not reported exactly once per session. -/
theorem c2_misconfigured_engine_null_warn_each_call
    (orgId apiKey : String) (hmiss : orgId = "" ∨ apiKey = "")
    (calls : List (CoveoOptions × Bool)) :
    runCalls orgId apiKey calls = (none, calls.length) := by
  rw [runCalls, initCallsFold_missing_creds orgId apiKey hmiss calls 0]
  rw [Nat.zero_add]

/-- Witness for C2 at a concrete misconfigured session of three calls. -/
theorem c2_misconfigured_engine_null_warn_each_call_witness :
    runCalls "" "k" [(defaultOptions, true), (optionsA, true), (optionsB, false)] = (none, 3) :=
  c2_misconfigured_engine_null_warn_each_call "" "k" (Or.inl rfl)
    [(defaultOptions, true), (optionsA, true), (optionsB, false)]

/-- C3, counterexample: a SearchBox submit with no highlighted suggestion
places only the submit call on the controller and appends nothing to any
recent-queries list; neither the component state nor the canonical state
carries such a list. -/
theorem c3_counterexample_no_recent_append :
    (onSubmit true sampleSBState).2 = [SBEffect.submitSearch] ∧
    ((onSubmit true sampleSBState).2.filter SBEffect.isRecentAppend) = [] := by
  constructor <;> rfl

/-- C3 (amended): every SubmitQuery resets pageIndex to 0, but the
SearchBox submit path maintains no recent-queries list: no code path of
the onSubmit handler appends a recent-query entry. -/
theorem c3_submit_resets_page_no_recent_list :
    (∀ s : EngineState, (dispatch Action.submitQuery s).pageIndex = 0) ∧
    (∀ (present : Bool) (st : SBState),
      ((onSubmit present st).2.filter SBEffect.isRecentAppend) = []) := by
  constructor
  · intro s; rfl
  · intro present st
    simp only [onSubmit, selectSuggestionStep]
    split
    · split
      · split <;> simp [SBEffect.isRecentAppend]
      · simp [SBEffect.isRecentAppend]
    · rfl

/-- C4, counterexample: the Pager component initializes its cached refs to
currentPage 1 before any subscription callback runs, while the controller
projection of a canonical state sitting on 0-based page 1 of a 31-result
response reports currentPage 2: the component holds an independently
cached copy that diverges from canonical truth. -/
theorem c4_counterexample_cached_copy_diverges :
    pagerComponentInit ≠ pagerComponentSync divergedEngineState ∧
    pagerComponentInit.currentPage = 1 ∧
    (pagerProjection divergedEngineState 5).currentPage = 2 := by
  refine ⟨by decide, rfl, by decide⟩

/-- C4 (amended): the Pager controller state is a projection recomputed
from canonical engine state at the moment of access and consistent with
its fields, but the Vue components cache controller state in local refs
updated only inside subscription callbacks, and such a cached copy can
diverge from the canonical projection (in particular before the first
notification). -/
theorem c4_projection_recomputed_component_caches :
    (∀ s : EngineState,
      (pagerProjection s 5).currentPage = s.pageIndex + 1 ∧
      (pagerProjection s 5).maxPage = maxPageIndex s + 1 ∧
      ((pagerProjection s 5).hasNextPage = true ↔ s.pageIndex < maxPageIndex s) ∧
      ((pagerProjection s 5).hasPreviousPage = true ↔ 0 < s.pageIndex)) ∧
    (∀ s : EngineState,
      (pagerComponentSync s).currentPage = (pagerProjection s 5).currentPage ∧
      (pagerComponentSync s).maxPage = (pagerProjection s 5).maxPage) ∧
    (∃ s : EngineState, pagerComponentSync s ≠ pagerComponentInit) := by
  refine ⟨?_, ?_, ⟨divergedEngineState, by decide⟩⟩
  · intro s
    refine ⟨rfl, rfl, ?_, ?_⟩ <;> simp [pagerProjection]
  · intro s
    exact ⟨rfl, rfl⟩

/-- C5: at the last page, the Pager nextPage intent leaves the canonical
state unchanged and triggers no network request; at the first page,
previousPage likewise; and the Pager component only calls the controller
when the corresponding has-page flag is true, so neither wraps nor
errors. -/
theorem c5_pager_noop_at_bounds :
    (∀ s : EngineState, s.pageIndex = maxPageIndex s → pagerNextPage s = (s, false)) ∧
    (∀ s : EngineState, s.pageIndex = 0 → pagerPreviousPage s = (s, false)) ∧
    (∀ present : Bool, goToNext present false = []) ∧
    (∀ present : Bool, goToPrevious present false = []) := by
  refine ⟨?_, ?_, ?_, ?_⟩
  · intro s h; simp [pagerNextPage, h]
  · intro s h; simp [pagerPreviousPage, h]
  · intro present; simp [goToNext]
  · intro present; simp [goToPrevious]

/-- Witness for C5 at a concrete state that is both on its last and its
first page (a single-page response), and with the component guards. -/
theorem c5_pager_noop_at_bounds_witness :
    pagerNextPage sampleIdleState = (sampleIdleState, false) ∧
    pagerPreviousPage sampleIdleState = (sampleIdleState, false) ∧
    goToNext true false = [] ∧
    goToPrevious true false = [] :=
  ⟨c5_pager_noop_at_bounds.1 sampleIdleState (by decide),
   c5_pager_noop_at_bounds.2.1 sampleIdleState rfl,
   c5_pager_noop_at_bounds.2.2.1 true,
   c5_pager_noop_at_bounds.2.2.2 true⟩

/-- C6: opening a result emits exactly one Click event, carrying the
unique id and rank of the result and the originating query text, and a
failed emission never rolls back or blocks the state transition: the
canonical state after an open is the same whatever the delivery
outcome. -/
theorem c6_click_event_once_fire_and_forget :
    (∀ (s : EngineState) (r : Result),
      trackClick (some s) r = [clickEventOf s r] ∧
      (trackClick (some s) r).length = 1 ∧
      clickEventOf s r =
        { uniqueId := r.uniqueId, rank := r.rank, query := s.queryText }) ∧
    (∀ (s : EngineState) (r : Result) (delivered : Bool),
      (openResult s r delivered).1 = s ∧
      (openResult s r delivered).2.1 = [clickEventOf s r]) :=
  ⟨fun _ _ => ⟨rfl, rfl, rfl⟩, fun _ _ _ => ⟨rfl, rfl⟩⟩

/-- C7: when a correction is pending, the DidYouMean applyCorrection
handler replaces the canonical query text with the corrected query and
triggers a refetch with a fresh sequence number; when no correction is
pending it is a no-op that leaves the state untouched and raises no
error. -/
theorem c7_apply_correction :
    (∀ (s : EngineState) (c : Correction), correctionOf s = some c →
      (applyCorrectionHandler true s).queryText = c.correctedQuery ∧
      (applyCorrectionHandler true s).requestSequence = s.requestSequence + 1 ∧
      (applyCorrectionHandler true s).pendingRequestId = some (s.requestSequence + 1)) ∧
    (∀ s : EngineState, correctionOf s = none → applyCorrectionHandler true s = s) := by
  constructor
  · intro s c h
    refine ⟨?_, ?_, ?_⟩ <;> simp [applyCorrectionHandler, dispatch, h, triggerRefetch]
  · intro s h
    simp [applyCorrectionHandler, dispatch, h]

/-- Witness for C7: applying the sample correction rewrites the query
from cofee to coffee, and at a correction-free state the handler is the
identity. -/
theorem c7_apply_correction_witness :
    (applyCorrectionHandler true correctionState).queryText = "coffee" ∧
    applyCorrectionHandler true sampleIdleState = sampleIdleState :=
  ⟨(c7_apply_correction.1 correctionState sampleCorrection rfl).1,
   c7_apply_correction.2 sampleIdleState rfl⟩

/-- C8: the searchOriginal handler of the DidYouMean component is an
unimplemented stub: invoking it on any state changes no field of the
canonical state, triggers no request (the request sequence and the
pending request marker are untouched) and places no call on the
controller. -/
theorem c8_search_original_stub :
    ∀ (present : Bool) (s : EngineState),
      searchOriginal present s = (s, []) ∧
      (searchOriginal present s).1.requestSequence = s.requestSequence ∧
      (searchOriginal present s).1.pendingRequestId = s.pendingRequestId := by
  intro present s
  cases present <;> exact ⟨rfl, rfl, rfl⟩

/-- C9: engine construction is idempotent within a client session: once
the singleton holds an instance, every subsequent useCoveoEngine call
returns that identical instance with no warning and no error, whatever
options it passes; and the configuration of the instance was fixed by the
first successful call, the options of later calls having no effect on
it. -/
theorem c9_engine_singleton_idempotent :
    (∀ (inst : Option BuiltEngine) (e : BuiltEngine) (orgId apiKey : String)
        (opts : CoveoOptions) (buildOk : Bool), inst = some e →
      initEngine true inst orgId apiKey opts buildOk =
        { instanceAfter := some e, returned := some e, warnCount := 0, errorCount := 0 }) ∧
    (∀ (orgId apiKey : String) (o1 o2 : CoveoOptions) (b2 : Bool),
      orgId ≠ "" → apiKey ≠ "" →
      (initEngine true none orgId apiKey o1 true).instanceAfter =
        some { config :=
          { organizationId := orgId, accessToken := apiKey,
            searchHub := o1.searchHub.getD "NuxtDemo", pipeline := o1.pipeline } } ∧
      initEngine true (initEngine true none orgId apiKey o1 true).instanceAfter
          orgId apiKey o2 b2 =
        { instanceAfter := (initEngine true none orgId apiKey o1 true).instanceAfter,
          returned := (initEngine true none orgId apiKey o1 true).instanceAfter,
          warnCount := 0, errorCount := 0 }) := by
  constructor
  · intro inst e orgId apiKey opts buildOk h
    subst h
    rfl
  · intro orgId apiKey o1 o2 b2 h1 h2
    constructor <;> simp [initEngine, h1, h2]

/-- Witness for C9: with credentials org and key, a first call with
options selecting HubA builds the instance; a second call passing options
selecting HubB and a failing build still returns the identical HubA
instance; and a call against an existing instance returns it unchanged. -/
theorem c9_engine_singleton_idempotent_witness :
    initEngine true (some sampleBuiltEngine) "x" "y" optionsB false =
      { instanceAfter := some sampleBuiltEngine, returned := some sampleBuiltEngine,
        warnCount := 0, errorCount := 0 } ∧
    (initEngine true none "org" "key" optionsA true).instanceAfter =
      some { config :=
        { organizationId := "org", accessToken := "key",
          searchHub := optionsA.searchHub.getD "NuxtDemo", pipeline := optionsA.pipeline } } ∧
    initEngine true (initEngine true none "org" "key" optionsA true).instanceAfter
        "org" "key" optionsB false =
      { instanceAfter := (initEngine true none "org" "key" optionsA true).instanceAfter,
        returned := (initEngine true none "org" "key" optionsA true).instanceAfter,
        warnCount := 0, errorCount := 0 } :=
  ⟨c9_engine_singleton_idempotent.1 (some sampleBuiltEngine) sampleBuiltEngine
      "x" "y" optionsB false rfl,
   (c9_engine_singleton_idempotent.2 "org" "key" optionsA optionsB false
      (by decide) (by decide)).1,
   (c9_engine_singleton_idempotent.2 "org" "key" optionsA optionsB false
      (by decide) (by decide)).2⟩

/-- C10: the formattedDate projection yields null when the raw date field
is absent or equal to 0, interprets a nonzero raw value d as a millisecond
timestamp when d is above 10 to the 12th, and as a second timestamp
multiplied by 1000 otherwise. -/
theorem c10_formatted_date :
    (∀ r : Result, r.raw.date = none → formattedDate r = none) ∧
    (∀ r : Result, r.raw.date = some 0 → formattedDate r = none) ∧
    (∀ (r : Result) (d : Int), r.raw.date = some d → d ≠ 0 → d > 1000000000000 →
      formattedDate r = some d) ∧
    (∀ (r : Result) (d : Int), r.raw.date = some d → d ≠ 0 → d ≤ 1000000000000 →
      formattedDate r = some (d * 1000)) := by
  refine ⟨?_, ?_, ?_, ?_⟩
  · intro r h; simp [formattedDate, formattedDateMs, h]
  · intro r h; simp [formattedDate, formattedDateMs, h]
  · intro r d hdate hd0 hbig
    simp only [formattedDate, formattedDateMs, hdate]
    rw [if_neg hd0, if_pos hbig]
  · intro r d hdate hd0 hsmall
    simp only [formattedDate, formattedDateMs, hdate]
    rw [if_neg hd0, if_neg (by omega)]

/-- Witness for C10 on concrete results: an absent date and a zero date
yield null, a millisecond-range date is kept, a second-range date is
scaled by 1000. -/
theorem c10_formatted_date_witness :
    formattedDate (mkResult none) = none ∧
    formattedDate (mkResult (some 0)) = none ∧
    formattedDate (mkResult (some 1700000000000)) = some 1700000000000 ∧
    formattedDate (mkResult (some 1700000000)) = some (1700000000 * 1000) :=
  ⟨c10_formatted_date.1 (mkResult none) rfl,
   c10_formatted_date.2.1 (mkResult (some 0)) rfl,
   c10_formatted_date.2.2.1 (mkResult (some 1700000000000)) 1700000000000 rfl
     (by decide) (by decide),
   c10_formatted_date.2.2.2 (mkResult (some 1700000000)) 1700000000 rfl
     (by decide) (by decide)⟩

end CoveoDemo


